import Mathlib

/-!
Verification of the query-gating-and-streaming orchestration pipeline.

This file is a shallow embedding, in Lean 4, of the Python modules

  * `src/lambdas/shared/usage_tracking.py`
  * `src/lambdas/shared/subscription_middleware.py`
  * `src/lambdas/nat_agent_streaming/handler.py`
  * `src/lambdas/token_refresh/handler.py`

Python values flowing through the pipeline (request bodies, DynamoDB
items, Secrets Manager payloads, tool inputs) are modelled by `Json`.
External effects (store lookups, the token-endpoint exchange, the agent
message stream) are explicit inputs; store writes are explicit outputs.
Machine integers are `Int` (no overflow is relevant), timestamps are
`Int` seconds.  CPython's built-in `hash` on `str` is salted per process
(`PYTHONHASHSEED`), so every definition that fingerprints a tool call
takes the process's string-hash function `h : String → Int` as an
explicit argument.
-/

/-- Model of a Python/JSON value.  Numbers are integers: every numeric
field in the embedded code (timestamps, counters, limits) is integral. -/
inductive Json where
  | null : Json
  | bool (b : Bool) : Json
  | num (n : Int) : Json
  | str (s : String) : Json
  | arr (xs : List Json) : Json
  | obj (kvs : List (String × Json)) : Json

/-- Python truthiness (`bool(v)`): `None`, `False`, `0`, `""`, `[]`, `{}`
are falsy, everything else truthy. -/
def Json.truthy : Json → Bool
  | .null => false
  | .bool b => b
  | .num n => n != 0
  | .str s => !s.isEmpty
  | .arr xs => !xs.isEmpty
  | .obj kvs => !kvs.isEmpty

/-- First-match association lookup, the model of `dict.__getitem__` /
`dict.get` (Python dicts cannot hold duplicate keys). -/
def assocLookup (k : String) : List (String × Json) → Option Json
  | [] => none
  | (k2, v) :: t => if k == k2 then some v else assocLookup k t

/-- `d.get(k)`: `none` models Python `None` from a missing key.  On a
non-dict value the embedded code never calls `.get` (the handlers
type-annotate these as `dict`), so those cases return `none`. -/
def jsonGet (j : Json) (k : String) : Option Json :=
  match j with
  | .obj kvs => assocLookup k kvs
  | _ => none

/-- `d.get(k, default)`. -/
def jsonGetD (j : Json) (k : String) (d : Json) : Json :=
  (jsonGet j k).getD d

/-- `bool(d.get(k))`: key present with a truthy value. -/
def hasTruthy (d : Json) (k : String) : Bool :=
  (jsonGet d k).any Json.truthy

/-- `d[k]` after a truthiness guard on `d.get(k)` has established the key
is present. -/
def pyItem (d : Json) (k : String) : Json :=
  (jsonGet d k).getD Json.null

/-- `v == "s"` in Python: true exactly when `v` is that string. -/
def Json.isStr (j : Json) (s : String) : Bool :=
  match j with
  | .str t => t == s
  | _ => false

mutual

/-- CPython `repr` of a value, for the container cases of `str(v)`. -/
def Json.pyRepr : Json → String
  | .null => "None"
  | .bool true => "True"
  | .bool false => "False"
  | .num n => toString n
  | .str s => "'" ++ s ++ "'"
  | .arr xs => "[" ++ String.intercalate ", " (pyReprList xs) ++ "]"
  | .obj kvs => "\x7b" ++ String.intercalate ", " (pyReprFields kvs) ++ "\x7d"

def pyReprList : List Json → List String
  | [] => []
  | x :: t => x.pyRepr :: pyReprList t

def pyReprFields : List (String × Json) → List String
  | [] => []
  | (k, v) :: t => ("'" ++ k ++ "': " ++ v.pyRepr) :: pyReprFields t

end

/-- Python `str(v)`, as used by f-string interpolation. -/
def Json.pyStr : Json → String
  | .str s => s
  | v => v.pyRepr

/-- One escaped character of a JSON string literal, as `json.dumps`
emits it (`ensure_ascii=False`: non-ASCII characters pass through). -/
def escChar (c : Char) : String :=
  if c = '"' then "\\\""
  else if c = '\\' then "\\\\"
  else if c = '\n' then "\\n"
  else if c = '\t' then "\\t"
  else if c = '\r' then "\\r"
  else String.singleton c

def escapeJson (s : String) : String :=
  String.join (s.toList.map escChar)

/-- Code-point comparison of strings, Python's `<=` on `str`, used to
model `sort_keys=True`. -/
def charListLe : List Char → List Char → Bool
  | [], _ => true
  | _ :: _, [] => false
  | a :: as, b :: bs =>
    if a.toNat < b.toNat then true
    else if b.toNat < a.toNat then false
    else charListLe as bs

def strLe (a b : String) : Bool :=
  charListLe a.toList b.toList

/-- Insertion step of a stable insertion sort on (key, rendered value)
pairs. -/
def insertByKey (p : String × String) : List (String × String) → List (String × String)
  | [] => [p]
  | q :: t => if strLe p.1 q.1 then p :: q :: t else q :: insertByKey p t

/-- Stable sort by key, the model of Python's `sorted(d.items())` that
`json.dumps(..., sort_keys=True)` performs on each object. -/
def sortByKey (l : List (String × String)) : List (String × String) :=
  l.foldr insertByKey []

def renderField (kv : String × String) : String :=
  "\"" ++ escapeJson kv.1 ++ "\": " ++ kv.2

mutual

/-- `json.dumps(v, ensure_ascii=False)` with the default separators
`", "` and `": "`, keys in insertion order. -/
def Json.dumps : Json → String
  | .null => "null"
  | .bool true => "true"
  | .bool false => "false"
  | .num n => toString n
  | .str s => "\"" ++ escapeJson s ++ "\""
  | .arr xs => "[" ++ String.intercalate ", " (dumpsList xs) ++ "]"
  | .obj kvs => "\x7b" ++ String.intercalate ", " ((dumpsFields kvs).map renderField) ++ "\x7d"

def dumpsList : List Json → List String
  | [] => []
  | x :: t => x.dumps :: dumpsList t

def dumpsFields : List (String × Json) → List (String × String)
  | [] => []
  | (k, v) :: t => (k, v.dumps) :: dumpsFields t

end

mutual

/-- `json.dumps(v, sort_keys=True)`: like `Json.dumps` but each object's
fields are sorted by key (recursively). -/
def Json.dumpsSorted : Json → String
  | .null => "null"
  | .bool true => "true"
  | .bool false => "false"
  | .num n => toString n
  | .str s => "\"" ++ escapeJson s ++ "\""
  | .arr xs => "[" ++ String.intercalate ", " (dumpsSortedList xs) ++ "]"
  | .obj kvs =>
    "\x7b" ++ String.intercalate ", " ((sortByKey (dumpsSortedFields kvs)).map renderField) ++ "\x7d"

def dumpsSortedList : List Json → List String
  | [] => []
  | x :: t => x.dumpsSorted :: dumpsSortedList t

def dumpsSortedFields : List (String × Json) → List (String × String)
  | [] => []
  | (k, v) :: t => (k, v.dumpsSorted) :: dumpsSortedFields t

end

/-- Substring test on character lists. -/
def infixOf (needle : List Char) : List Char → Bool
  | [] => needle.isPrefixOf []
  | c :: t => needle.isPrefixOf (c :: t) || infixOf needle t

/-- Python's `needle in hay` on strings. -/
def containsSub (hay needle : String) : Bool :=
  infixOf needle.toList hay.toList

/-! ## usage_tracking.py -/

/-- `RATE_LIMIT_COOLDOWN_SECONDS` in `usage_tracking.py`. -/
def RATE_LIMIT_COOLDOWN_SECONDS : Int := 5

/-- Outcome of the DynamoDB `get_item` performed by `check_rate_limit`:
the call raised a `ClientError`, found no item, or found an item whose
`last_query_at` attribute is absent (`none`) or an integer. -/
inductive RateLookup where
  | svcError : RateLookup
  | noItem : RateLookup
  | item (last_query_at : Option Int) : RateLookup

/-- `check_rate_limit(user_id)` from `usage_tracking.py`, as a function
of the store lookup outcome and the current time.  `some r` models the
`RateLimitError` with `retry_after = r`; `none` models a normal return.
A `ClientError` is caught and swallowed (fail open). -/
def check_rate_limit (lookup : RateLookup) (now : Int) : Option Int :=
  match lookup with
  | .svcError => none
  | .noItem => none
  | .item none => none
  | .item (some last_query_at) =>
    let elapsed := now - last_query_at
    if elapsed < RATE_LIMIT_COOLDOWN_SECONDS then
      some (RATE_LIMIT_COOLDOWN_SECONDS - elapsed)
    else
      none

/-- The per-user rate-limit marker and per-nation usage counter touched
by `track_query_usage_nation`. -/
structure UsageState where
  last_query_at : Option Int
  queries_used_this_period : Int

/-- `track_query_usage_nation(user_id, nation_slug)`: sets the user's
`last_query_at` to now (`update_last_query_time`) and atomically
increments the nation's counter (`increment_query_count_nation`),
returning the new count. -/
def track_query_usage_nation (now : Int) (st : UsageState) : UsageState × Int :=
  let st2 : UsageState :=
    { last_query_at := some now
      queries_used_this_period := st.queries_used_this_period + 1 }
  (st2, st2.queries_used_this_period)

/-! ## subscription_middleware.py -/

/-- `ACTIVE_STATUSES` in `subscription_middleware.py`. -/
def ACTIVE_STATUSES : List String := ["active", "trialing"]

/-- `SubscriptionErrorCode` enum. -/
inductive SubErrCode where
  | MISSING_USER_ID
  | MISSING_NATION_SLUG
  | USER_NOT_FOUND
  | NATION_NOT_FOUND
  | TENANT_NOT_FOUND
  | SUBSCRIPTION_INACTIVE
  | QUERY_LIMIT_EXCEEDED
  | RATE_LIMIT_EXCEEDED
  deriving DecidableEq, Repr

/-- `SubscriptionError` exception: error code, message, HTTP status. -/
structure SubError where
  code : SubErrCode
  message : String
  http_status : Int

/-- `int(v)` on the numeric DynamoDB attributes read by the middleware
(stored as numbers, possibly `Decimal`; the code converts with `int`). -/
def pyInt : Json → Int
  | .num n => n
  | .bool true => 1
  | _ => 0

/-- `v in ACTIVE_STATUSES` for a value read out of a record (`in` on a
set of strings is false for any non-string value). -/
def isActiveStatus (v : Json) : Bool :=
  match v with
  | .str s => ACTIVE_STATUSES.contains s
  | _ => false

/-- `NationSubscriptionStatus` result record. -/
structure NationSubscriptionStatus where
  valid : Bool
  nation_slug : String
  user_id : String
  plan : Json
  queries_used_this_period : Int
  queries_limit : Int
  subscription_status : Json

/-- `SubscriptionStatus` result record (legacy tenant path). -/
structure TenantSubscriptionStatus where
  valid : Bool
  tenant_id : String
  user_id : String
  plan : Json
  queries_this_month : Int
  queries_limit : Int
  subscription_status : Json

/-- `verify_nation_subscription(user_id, nation_slug)` from
`subscription_middleware.py`, as a function of the NationsTable item
(`get_nation_subscription` raises `NATION_NOT_FOUND` when the item is
missing). -/
def verify_nation_subscription (item : Option Json) (user_id nation_slug : String) :
    Except SubError NationSubscriptionStatus :=
  match item with
  | none =>
    .error ⟨.NATION_NOT_FOUND,
      "Nation " ++ nation_slug ++
        " not found. Please connect your NationBuilder account first.", 404⟩
  | some nation =>
    let subscription_status := jsonGetD nation "subscription_status" (.str "none")
    let plan := jsonGetD nation "subscription_plan" (.str "trial")
    let queries_used := pyInt (jsonGetD nation "queries_used_this_period" (.num 0))
    let queries_limit := pyInt (jsonGetD nation "queries_limit" (.num 50))
    if !isActiveStatus subscription_status then
      .error ⟨.SUBSCRIPTION_INACTIVE,
        "Nation subscription is not active (status: " ++ subscription_status.pyStr ++
          "). Please subscribe at https://natassistant.com/pricing", 402⟩
    else if queries_limit > 0 && queries_used >= queries_limit then
      .error ⟨.QUERY_LIMIT_EXCEEDED,
        "Monthly query limit of " ++ toString queries_limit ++ " exceeded for nation " ++
          nation_slug ++ ". Upgrade your plan for more queries.", 403⟩
    else
      .ok ⟨true, nation_slug, user_id, plan, queries_used, queries_limit,
        subscription_status⟩

/-- `verify_subscription(user_id, tenant_id)` from
`subscription_middleware.py`, as a function of the TenantsTable item
(`get_tenant_subscription` raises `TENANT_NOT_FOUND` when missing; the
upstream `get_user_tenant_id` resolution is outside this function). -/
def verify_subscription (item : Option Json) (user_id tenant_id : String) :
    Except SubError TenantSubscriptionStatus :=
  match item with
  | none =>
    .error ⟨.TENANT_NOT_FOUND, "Tenant " ++ tenant_id ++ " not found", 403⟩
  | some tenant =>
    let subscription_status := jsonGetD tenant "stripe_subscription_status" (.str "")
    let plan := jsonGetD tenant "plan" (.str "starter")
    let queries_this_month := pyInt (jsonGetD tenant "queries_this_month" (.num 0))
    let queries_limit := pyInt (jsonGetD tenant "queries_limit" (.num 500))
    if !isActiveStatus subscription_status then
      .error ⟨.SUBSCRIPTION_INACTIVE,
        "Subscription is not active. Please update your payment method.", 402⟩
    else if queries_this_month >= queries_limit then
      .error ⟨.QUERY_LIMIT_EXCEEDED,
        "Monthly query limit of " ++ toString queries_limit ++
          " exceeded. Upgrade your plan for more queries.", 403⟩
    else
      .ok ⟨true, tenant_id, user_id, plan, queries_this_month, queries_limit,
        subscription_status⟩

/-- Error code of an `Except SubError` result, for stating theorems. -/
def subErrCode {α : Type} : Except SubError α → Option SubErrCode
  | .error e => some e.code
  | .ok _ => none

/-- Whether a verification succeeded. -/
def subOk {α : Type} : Except SubError α → Bool
  | .error _ => false
  | .ok _ => true

/-! ## nat_agent_streaming/handler.py -/

def SSE_EVENT_TEXT : String := "text"
def SSE_EVENT_TOOL_USE : String := "tool_use"
def SSE_EVENT_TOOL_RESULT : String := "tool_result"
def SSE_EVENT_ERROR : String := "error"
def SSE_EVENT_DONE : String := "done"
def SSE_EVENT_CONFIRMATION_REQUIRED : String := "confirmation_required"

/-- `DESTRUCTIVE_TOOLS` from `nat_agent_streaming/handler.py`. -/
def DESTRUCTIVE_TOOLS : List String :=
  ["delete_signup", "delete_contact", "delete_donation", "delete_event",
   "delete_event_rsvp", "delete_path_journey", "remove_from_list",
   "update_signup", "update_donation", "update_event"]

/-- One server-sent event before serialization: its type and its
`data` payload (the Python dict passed to `format_sse_event`). -/
structure SseEvent where
  ty : String
  data : Json

/-- `format_sse_event(event_type, data)`. -/
def format_sse_event (event_type : String) (data : Json) : String :=
  "event: " ++ event_type ++ "\ndata: " ++ data.dumps ++ "\n\n"

/-- `i.get(k, 'unknown')` interpolated into an f-string. -/
def pyGetStr (i : Json) (k : String) : String :=
  (jsonGetD i k (.str "unknown")).pyStr

/-- `generate_tool_summary(tool_name, tool_input)`. -/
def generate_tool_summary (tool_name : String) (i : Json) : String :=
  if tool_name == "delete_signup" then "Delete person record " ++ pyGetStr i "person_id"
  else if tool_name == "delete_contact" then "Delete contact record " ++ pyGetStr i "id"
  else if tool_name == "delete_donation" then "Delete donation record " ++ pyGetStr i "id"
  else if tool_name == "delete_event" then "Delete event " ++ pyGetStr i "id"
  else if tool_name == "delete_event_rsvp" then "Delete RSVP " ++ pyGetStr i "id" ++ " from event"
  else if tool_name == "delete_path_journey" then "Delete journey " ++ pyGetStr i "id" ++ " from path"
  else if tool_name == "remove_from_list" then
    "Remove person " ++ pyGetStr i "person_id" ++ " from list " ++ pyGetStr i "list_id"
  else if tool_name == "update_signup" then "Update person record " ++ pyGetStr i "person_id"
  else if tool_name == "update_donation" then "Update donation record " ++ pyGetStr i "id"
  else if tool_name == "update_event" then "Update event " ++ pyGetStr i "id"
  else "Execute " ++ tool_name

/-- `_get_undo_instruction(undo_type, undo_data, original_tool_name)`.
The first and third arguments are the raw values the caller pulled out
of an undo-stack entry, so they are arbitrary JSON values; Python's
`==` against a string literal is false for any non-string value. -/
def get_undo_instruction (undo_type : Json) (undo_data : Json) (original_tool_name : Json) :
    String :=
  if undo_type.isStr "delete_created" then
    if original_tool_name.isStr "create_signup" && hasTruthy undo_data "signup_id" then
      "call delete_signup with id=" ++ (pyItem undo_data "signup_id").pyStr
    else if original_tool_name.isStr "create_contact" && hasTruthy undo_data "contact_id" then
      "call delete_contact with id=" ++ (pyItem undo_data "contact_id").pyStr
    else if original_tool_name.isStr "create_donation" && hasTruthy undo_data "donation_id" then
      "call delete_donation with id=" ++ (pyItem undo_data "donation_id").pyStr
    else if original_tool_name.isStr "create_event_rsvp" && hasTruthy undo_data "rsvp_id" then
      "call delete_event_rsvp with id=" ++ (pyItem undo_data "rsvp_id").pyStr
    else "This action cannot be undone"
  else if undo_type.isStr "remove_from_list" then
    if hasTruthy undo_data "person_id" && hasTruthy undo_data "list_id" then
      "call remove_from_list with person_id=" ++ (pyItem undo_data "person_id").pyStr ++
        ", list_id=" ++ (pyItem undo_data "list_id").pyStr
    else "This action cannot be undone"
  else if undo_type.isStr "add_to_list" then
    if hasTruthy undo_data "person_id" && hasTruthy undo_data "list_id" then
      "call add_to_list with person_id=" ++ (pyItem undo_data "person_id").pyStr ++
        ", list_id=" ++ (pyItem undo_data "list_id").pyStr
    else "This action cannot be undone"
  else if undo_type.isStr "remove_tag" then
    if hasTruthy undo_data "signup_id" && hasTruthy undo_data "tagging_id" then
      "call remove_signup_tagging with signup_id=" ++ (pyItem undo_data "signup_id").pyStr ++
        ", id=" ++ (pyItem undo_data "tagging_id").pyStr
    else "This action cannot be undone"
  else if undo_type.isStr "add_tag" then
    if hasTruthy undo_data "signup_id" && hasTruthy undo_data "tag_name" then
      "call add_signup_tagging with signup_id=" ++ (pyItem undo_data "signup_id").pyStr ++
        ", tag_name=" ++ (pyItem undo_data "tag_name").pyStr
    else "This action cannot be undone"
  else "This action cannot be undone"

/-- One rendered line of the undo context block, for the entry `a` at
position `i` of `reversed(recent_actions)` (from
`stream_agent_response`, the loop over the undo stack).  The tool name,
undo type and undo data are read from the camelCase keys `"toolName"`,
`"undoType"`, `"undoData"`, each with its literal default. -/
def renderUndoEntry (i : Nat) (a : Json) : String :=
  "  " ++ toString (i + 1) ++ ". " ++
    (jsonGetD a "description" (.str "Unknown action")).pyStr ++
    " - To undo: " ++
    get_undo_instruction
      (jsonGetD a "undoType" (.str "not_undoable"))
      (jsonGetD a "undoData" (.obj []))
      (jsonGetD a "toolName" (.str "unknown"))

/-- The undo context block built from `undo_stack[-5:]`, most recent
first. -/
def undo_context_block (undo_stack : List Json) : String :=
  let recent_actions := undo_stack.drop (undo_stack.length - 5)
  String.intercalate "\n"
    (["[Recent Actions (can be undone):"] ++
      ((recent_actions.reverse.enum).map fun p => renderUndoEntry p.1 p.2) ++
      ["]"])

/-- `undo_phrases` from `stream_agent_response`. -/
def undo_phrases : List String :=
  ["undo", "revert", "reverse", "take back", "cancel that", "nevermind"]

/-- The undo-intent heuristic: some phrase occurs in the lowercased
query. -/
def is_undo_request (query : String) : Bool :=
  undo_phrases.any fun p => containsSub query.toLower p

/-- The prompt assembly at the top of `stream_agent_response`: optional
page context section, optional undo context block, then the query,
joined with blank lines. -/
def build_full_prompt (query : String) (context : Json) (undo_stack : List Json) : String :=
  let context_parts : List String :=
    (if hasTruthy context "page_type" then
      ["Page type: " ++ (pyItem context "page_type").pyStr] else []) ++
    (if hasTruthy context "person_name" then
      ["Viewing person: " ++ (pyItem context "person_name").pyStr] else []) ++
    (if hasTruthy context "person_id" then
      ["Person ID: " ++ (pyItem context "person_id").pyStr] else []) ++
    (if hasTruthy context "list_name" then
      ["Viewing list: " ++ (pyItem context "list_name").pyStr] else []) ++
    (if hasTruthy context "event_name" then
      ["Viewing event: " ++ (pyItem context "event_name").pyStr] else [])
  let context_sections : List String :=
    (if context.truthy && !context_parts.isEmpty then
      ["[Context: " ++ String.intercalate ", " context_parts ++ "]"] else []) ++
    (if is_undo_request query && !undo_stack.isEmpty then
      [undo_context_block undo_stack] else [])
  if context_sections.isEmpty then query
  else String.intercalate "\n\n" context_sections ++ "\n\n" ++ query

/-- The confirmation fingerprint
`f"{block.name}_{hash(json.dumps(block.input, sort_keys=True))}"`.
`h` is the process's `hash` on `str`, which CPython salts per process
(`PYTHONHASHSEED`), hence an explicit argument. -/
def tool_id (h : String → Int) (name : String) (input : Json) : String :=
  name ++ "_" ++ toString (h input.dumpsSorted)

/-- A content block of an `AssistantMessage` from the agent SDK. -/
inductive ContentBlock where
  | text (s : String) : ContentBlock
  | toolUse (name : String) (input : Json) : ContentBlock

/-- A message of the agent's response stream. -/
inductive AgentMessage where
  | assistant (blocks : List ContentBlock) : AgentMessage
  | result (res : String) (is_error : Bool) : AgentMessage

/-- `str(message.result)[:500]`. -/
def pyTruncate (s : String) (n : Nat) : String :=
  String.mk (s.toList.take n)

/-- The `tool_info` dict `{"name": ..., "input": ...}`. -/
def toolInfoJson (name : String) (input : Json) : Json :=
  .obj [("name", .str name), ("input", input)]

/-- Payload of a `confirmation_required` event. -/
def confirmationData (h : String → Int) (name : String) (input : Json) : Json :=
  .obj [("tool_id", .str (tool_id h name input)),
        ("tool_name", .str name),
        ("tool_input", input),
        ("summary", .str (generate_tool_summary name input))]

/-- Generator state of `stream_agent_response` while it consumes the
message stream: events yielded so far, the accumulated `full_response`
fragments, the accumulated `tool_calls`, and whether the generator has
`return`ed after yielding a `confirmation_required` event (after which
nothing more is processed or yielded). -/
structure StreamAcc where
  events : List SseEvent
  response : List String
  tool_calls : List Json
  paused : Bool

def initAcc : StreamAcc := ⟨[], [], [], false⟩

/-- Processing of one content block of an `AssistantMessage`. -/
def processBlock (h : String → Int) (confirmed : List String) (acc : StreamAcc) :
    ContentBlock → StreamAcc
  | .text s =>
    if acc.paused then acc
    else
      { acc with
        response := acc.response ++ [s]
        events := acc.events ++ [⟨SSE_EVENT_TEXT, .obj [("text", .str s)]⟩] }
  | .toolUse name input =>
    if acc.paused then acc
    else
      let tid := tool_id h name input
      if DESTRUCTIVE_TOOLS.contains name && !confirmed.contains tid then
        { acc with
          events := acc.events ++ [⟨SSE_EVENT_CONFIRMATION_REQUIRED, confirmationData h name input⟩]
          paused := true }
      else
        { acc with
          tool_calls := acc.tool_calls ++ [toolInfoJson name input]
          events := acc.events ++ [⟨SSE_EVENT_TOOL_USE, toolInfoJson name input⟩] }

/-- Processing of one message of the stream. -/
def processMessage (h : String → Int) (confirmed : List String) (acc : StreamAcc) :
    AgentMessage → StreamAcc
  | .assistant blocks =>
    if acc.paused then acc else blocks.foldl (processBlock h confirmed) acc
  | .result res is_error =>
    if acc.paused then acc
    else
      { acc with
        events := acc.events ++
          [⟨SSE_EVENT_TOOL_RESULT,
            .obj [("result", .str (pyTruncate res 500)), ("is_error", .bool is_error)]⟩] }

def runMessagesAcc (h : String → Int) (confirmed : List String) (acc : StreamAcc)
    (msgs : List AgentMessage) : StreamAcc :=
  msgs.foldl (processMessage h confirmed) acc

def runMessages (h : String → Int) (confirmed : List String) (msgs : List AgentMessage) :
    StreamAcc :=
  runMessagesAcc h confirmed initAcc msgs

/-- The final `done` event of a successfully completed stream. -/
def doneEvent (acc : StreamAcc) : SseEvent :=
  ⟨SSE_EVENT_DONE, .obj [("response", .str (String.join acc.response)),
                         ("tool_calls", .arr acc.tool_calls)]⟩

/-- The agent turn as observed by `stream_agent_response`: either the
SDK delivered the stream `msgs` to completion, or it delivered `msgs`
and then raised an exception with message `emsg`. -/
inductive TurnOutcome where
  | ok (msgs : List AgentMessage) : TurnOutcome
  | err (msgs : List AgentMessage) (emsg : String) : TurnOutcome

/-- `stream_agent_response` event semantics: the sequence of SSE events
the generator yields for a given turn outcome.  (The prompt it submits
is `build_full_prompt`; the prompt's effect on the agent is folded into
the `TurnOutcome` input.)  A pause for confirmation `return`s before
the `done` event; an exception is answered with an `error` event and a
`done` event carrying an empty response and the error, unless the
generator already returned. -/
def stream_agent_response (h : String → Int) (confirmed : List String)
    (outcome : TurnOutcome) : List SseEvent :=
  match outcome with
  | .ok msgs =>
    let acc := runMessages h confirmed msgs
    if acc.paused then acc.events else acc.events ++ [doneEvent acc]
  | .err msgs emsg =>
    let acc := runMessages h confirmed msgs
    if acc.paused then acc.events
    else
      acc.events ++
        [⟨SSE_EVENT_ERROR, .obj [("error", .str emsg), ("error_code", .str "AGENT_ERROR")]⟩,
         ⟨SSE_EVENT_DONE, .obj [("response", .str ""), ("tool_calls", .arr []),
                                ("error", .str emsg)]⟩]

/-- Outcome of the Secrets Manager lookup in `get_nb_tokens_by_nation`:
no secret (`ResourceNotFoundException`), a secret that fails JSON
parsing, or the parsed secret payload. -/
inductive SecretLookup where
  | notFound : SecretLookup
  | badJson : SecretLookup
  | found (secret_data : Json) : SecretLookup

/-- `get_nb_tokens_by_nation(nation_slug)`: `none` models returning
`None`, `some (access_token, slug)` the token pair.  The payload's
`needs_reauth` flag — or any field other than `access_token` and
`nation_slug` — is never consulted. -/
def get_nb_tokens_by_nation (lookup : SecretLookup) (nation_slug : String) :
    Option (String × String) :=
  match lookup with
  | .notFound => none
  | .badJson => none
  | .found secret_data =>
    let access_token := jsonGetD secret_data "access_token" .null
    let stored_slug := jsonGetD secret_data "nation_slug" .null
    if !access_token.truthy then none
    else some (access_token.pyStr, if stored_slug.truthy then stored_slug.pyStr else nation_slug)

/-- `set(body.get("confirmed_tools", []))` as a membership domain: the
string elements of the supplied list (a non-string element can never
equal a `tool_id`, which is a string). -/
def confirmed_tools_of (body : Json) : List String :=
  match jsonGetD body "confirmed_tools" (.arr []) with
  | .arr xs => xs.filterMap fun x => match x with | .str s => some s | _ => none
  | _ => []

/-- The success test `process_streaming_request` applies to each yielded
SSE string: `SSE_EVENT_DONE in event and '"error":' not in event` —
substring containment on the serialized event, not an event-type
check. -/
def doneFlagCheck (e : SseEvent) : Bool :=
  let s := format_sse_event e.ty e.data
  containsSub s SSE_EVENT_DONE && !containsSub s "\"error\":"

/-- Result of `process_streaming_request`: the yielded events and
whether `track_query_usage_nation` is invoked afterwards
(`stream_succeeded`). -/
structure StreamingResult where
  events : List SseEvent
  usageTracked : Bool

def badRequestEvent (msg : String) : SseEvent :=
  ⟨SSE_EVENT_ERROR, .obj [("error", .str msg), ("error_code", .str "BAD_REQUEST")]⟩

/-- `process_streaming_request(body)` from
`nat_agent_streaming/handler.py`, as a function of the request body,
the rate-limit store lookup, the current time, the nation token secret
lookup, and the agent turn outcome.  (`check_and_reset_billing_cycle_nation`
only mutates the nations table and yields no event, so it does not
appear in the event semantics.)  `usageTracked` is the
`stream_succeeded` flag guarding `track_query_usage_nation`. -/
def process_streaming_request (h : String → Int) (body : Json) (rate : RateLookup)
    (now : Int) (secret : SecretLookup) (outcome : TurnOutcome) : StreamingResult :=
  let query := jsonGetD body "query" .null
  let user_id := jsonGetD body "user_id" .null
  let nation_slug := jsonGetD body "nation_slug" .null
  if !query.truthy then
    ⟨[badRequestEvent "Missing required field: query"], false⟩
  else if !user_id.truthy then
    ⟨[badRequestEvent "Missing required field: user_id"], false⟩
  else if !nation_slug.truthy then
    ⟨[badRequestEvent "Missing required field: nation_slug"], false⟩
  else
    match check_rate_limit rate now with
    | some retry_after =>
      ⟨[⟨SSE_EVENT_ERROR,
         .obj [("error", .str ("Rate limit exceeded. Please wait " ++ toString retry_after ++
                 " seconds.")),
               ("error_code", .str "RATE_LIMIT_EXCEEDED"),
               ("retry_after", .num retry_after)]⟩], false⟩
    | none =>
      match get_nb_tokens_by_nation secret nation_slug.pyStr with
      | none =>
        ⟨[⟨SSE_EVENT_ERROR,
           .obj [("error", .str "NationBuilder not connected for this nation"),
                 ("error_code", .str "NB_NOT_CONNECTED")]⟩], false⟩
      | some _ =>
        let events := stream_agent_response h (confirmed_tools_of body) outcome
        ⟨events, events.any doneFlagCheck⟩

/-! ## token_refresh/handler.py -/

/-- Outcome of `get_user_tokens(user_id)`: secret missing
(`ResourceNotFoundException`, returns `None`) or the parsed payload. -/
inductive TokensLookup where
  | notFound : TokensLookup
  | found (tokens : Json) : TokensLookup

/-- Outcome of the POST to the provider's token endpoint inside
`refresh_access_token`: a transport-level error (`urllib3` raises an
`HTTPError` subclass, which the function re-raises), or an HTTP
response with a status and parsed JSON body. -/
inductive ExchangeOutcome where
  | networkError (emsg : String) : ExchangeOutcome
  | response (status : Int) (token_data : Json) : ExchangeOutcome

/-- Exceptions escaping `refresh_access_token`: `ValueError` for a
non-200 response, the re-raised transport error otherwise. -/
inductive RefreshExc where
  | valueError (emsg : String) : RefreshExc
  | httpError (emsg : String) : RefreshExc

/-- `refresh_access_token(...)`: returns the parsed token response for
a 200, raises `ValueError` for any other status, re-raises transport
errors. -/
def refresh_access_token (outcome : ExchangeOutcome) : Except RefreshExc Json :=
  match outcome with
  | .networkError emsg => .error (.httpError emsg)
  | .response status token_data =>
    if status != 200 then
      .error (.valueError ("Token refresh failed with status " ++ toString status))
    else
      .ok token_data

/-- The write `update_user_token_status` performs on the user record:
either `nb_needs_reauth := true`, or `nb_needs_reauth := false` with a
new `nb_token_expires_at`. -/
inductive UserStatusUpdate where
  | setNeedsReauth : UserStatusUpdate
  | setRefreshed (expires_at : Int) : UserStatusUpdate
  deriving DecidableEq, Repr

/-- The payload `store_nb_tokens` writes to Secrets Manager (the new
token pair replaces the old one in a single `put_secret_value`). -/
structure StoredTokens where
  access_token : Json
  refresh_token : Json
  expires_at : Int
  nb_slug : Json

/-- Store writes performed by one `refresh_user_token` call: the token
secret overwrite, if any, and the user-record status update, if any. -/
structure RefreshEffects where
  stored : Option StoredTokens
  statusUpdate : Option UserStatusUpdate

/-- `RefreshResult` record. -/
structure RefreshResult where
  user_id : String
  success : Bool
  error : Option String

/-- `refresh_user_token(user_id, client_id, client_secret)` from
`token_refresh/handler.py`, as a function of the stored-tokens lookup
and the token-endpoint exchange outcome.  `now` is the current Unix
time used for the new `expires_at`.  A `ValueError` from the exchange
is caught and answered with `needs_reauth = true`; any other exception
(in particular the re-raised transport error) falls into the generic
`except Exception` branch, which records a failure without touching the
user record. -/
def refresh_user_token (user_id : String) (lookup : TokensLookup)
    (exchange : ExchangeOutcome) (now : Int) : RefreshResult × RefreshEffects :=
  match lookup with
  | .notFound => (⟨user_id, false, some "No tokens found"⟩, ⟨none, none⟩)
  | .found tokens =>
    let refresh_token := jsonGet tokens "refresh_token"
    let nb_slug := jsonGet tokens "nb_slug"
    if !(refresh_token.any Json.truthy) then
      (⟨user_id, false, some "No refresh token"⟩, ⟨none, some .setNeedsReauth⟩)
    else if !(nb_slug.any Json.truthy) then
      (⟨user_id, false, some "No NB slug"⟩, ⟨none, some .setNeedsReauth⟩)
    else
      match refresh_access_token exchange with
      | .error (.valueError emsg) =>
        (⟨user_id, false, some emsg⟩, ⟨none, some .setNeedsReauth⟩)
      | .error (.httpError emsg) =>
        (⟨user_id, false, some emsg⟩, ⟨none, none⟩)
      | .ok token_response =>
        let new_access_token := jsonGetD token_response "access_token" (.str "")
        let new_refresh_token := jsonGetD token_response "refresh_token" (.str "")
        let expires_in := pyInt (jsonGetD token_response "expires_in" (.num 7200))
        if !new_access_token.truthy then
          (⟨user_id, false, some "No access token in response"⟩, ⟨none, some .setNeedsReauth⟩)
        else
          let final_refresh :=
            if new_refresh_token.truthy then new_refresh_token else refresh_token.getD .null
          (⟨user_id, true, none⟩,
           ⟨some ⟨new_access_token, final_refresh, now + expires_in, nb_slug.getD .null⟩,
            some (.setRefreshed (now + expires_in))⟩)

/-! ## Statement-level definitions -/

/-- Number of events of a given type in an event sequence. -/
def countType (t : String) (evs : List SseEvent) : Nat :=
  evs.countP fun e => e.ty == t

/-- The content blocks carried by a message. -/
def msgBlocks : AgentMessage → List ContentBlock
  | .assistant blocks => blocks
  | .result _ _ => []

/-- A block that makes `stream_agent_response` pause: a tool invocation
of a destructive tool whose fingerprint is not in the confirmed set. -/
def isUnconfirmedDestructive (h : String → Int) (confirmed : List String) :
    ContentBlock → Bool
  | .text _ => false
  | .toolUse name input =>
    DESTRUCTIVE_TOOLS.contains name && !confirmed.contains (tool_id h name input)

/-- The branch conditions of `_get_undo_instruction`, collected: true
exactly when some synthesis case matches with its required fields
present and truthy. -/
def undoApplicable (undo_type undo_data original_tool_name : Json) : Bool :=
  (undo_type.isStr "delete_created" &&
    ((original_tool_name.isStr "create_signup" && hasTruthy undo_data "signup_id") ||
     (original_tool_name.isStr "create_contact" && hasTruthy undo_data "contact_id") ||
     (original_tool_name.isStr "create_donation" && hasTruthy undo_data "donation_id") ||
     (original_tool_name.isStr "create_event_rsvp" && hasTruthy undo_data "rsvp_id"))) ||
  (undo_type.isStr "remove_from_list" &&
    (hasTruthy undo_data "person_id" && hasTruthy undo_data "list_id")) ||
  (undo_type.isStr "add_to_list" &&
    (hasTruthy undo_data "person_id" && hasTruthy undo_data "list_id")) ||
  (undo_type.isStr "remove_tag" &&
    (hasTruthy undo_data "signup_id" && hasTruthy undo_data "tagging_id")) ||
  (undo_type.isStr "add_tag" &&
    (hasTruthy undo_data "signup_id" && hasTruthy undo_data "tag_name"))

/-- What `get_nb_tokens_by_nation` computes from a parsed secret, as a
function of the two fields it reads — used to state that no other field
(in particular no `needs_reauth` flag) influences credential
resolution on the streaming request path. -/
def nbTokensOf (access stored : Option Json) (nation_slug : String) :
    Option (String × String) :=
  let access_token := access.getD .null
  let stored_slug := stored.getD .null
  if !access_token.truthy then none
  else some (access_token.pyStr,
             if stored_slug.truthy then stored_slug.pyStr else nation_slug)

/-- A nations-table record with an active subscription and the given
usage and limit — the record shape the quota claims quantify over. -/
def nationQuotaRec (used limit : Int) : Json :=
  .obj [("subscription_status", .str "active"),
        ("queries_used_this_period", .num used),
        ("queries_limit", .num limit)]

/-- A tenants-table record with an active subscription and the given
usage and limit (legacy path). -/
def tenantQuotaRec (used limit : Int) : Json :=
  .obj [("stripe_subscription_status", .str "active"),
        ("queries_this_month", .num used),
        ("queries_limit", .num limit)]

/-- The three required-field checks at the top of
`process_streaming_request`, collected. -/
def bodyFieldsPresent (body : Json) : Bool :=
  (jsonGetD body "query" .null).truthy && (jsonGetD body "user_id" .null).truthy &&
    (jsonGetD body "nation_slug" .null).truthy

/-! ## Helper lemmas on the streaming fold -/

theorem processBlock_of_paused (h : String → Int) (c : List String) (acc : StreamAcc)
    (b : ContentBlock) (hp : acc.paused = true) : processBlock h c acc b = acc := by
  cases b <;> simp [processBlock, hp]

theorem foldlBlocks_of_paused (h : String → Int) (c : List String) (acc : StreamAcc)
    (bs : List ContentBlock) (hp : acc.paused = true) :
    bs.foldl (processBlock h c) acc = acc := by
  induction bs with
  | nil => rfl
  | cons b t ih => simp [List.foldl_cons, processBlock_of_paused h c acc b hp, ih]

theorem processMessage_of_paused (h : String → Int) (c : List String) (acc : StreamAcc)
    (m : AgentMessage) (hp : acc.paused = true) : processMessage h c acc m = acc := by
  cases m <;> simp [processMessage, hp]

theorem runMessagesAcc_of_paused (h : String → Int) (c : List String) (acc : StreamAcc)
    (ms : List AgentMessage) (hp : acc.paused = true) :
    runMessagesAcc h c acc ms = acc := by
  induction ms with
  | nil => rfl
  | cons m t ih => simp [runMessagesAcc, List.foldl_cons,
      processMessage_of_paused h c acc m hp, runMessagesAcc] at ih ⊢; exact ih

theorem processBlock_paused_false (h : String → Int) (c : List String) (acc : StreamAcc)
    (b : ContentBlock) (hb : isUnconfirmedDestructive h c b = false)
    (hp : acc.paused = false) : (processBlock h c acc b).paused = false := by
  cases b with
  | text s => simp [processBlock, hp]
  | toolUse name input =>
    simp [isUnconfirmedDestructive] at hb
    by_cases hd : name ∈ DESTRUCTIVE_TOOLS ∧ tool_id h name input ∉ c
    · exact absurd (hb hd.1) hd.2
    · simp [processBlock, hp, hd]

theorem foldlBlocks_paused_false (h : String → Int) (c : List String) (acc : StreamAcc)
    (bs : List ContentBlock)
    (hbs : ∀ b ∈ bs, isUnconfirmedDestructive h c b = false)
    (hp : acc.paused = false) :
    (bs.foldl (processBlock h c) acc).paused = false := by
  induction bs generalizing acc with
  | nil => exact hp
  | cons b t ih =>
    simp [List.foldl_cons]
    exact ih _ (fun x hx => hbs x (List.mem_cons_of_mem b hx))
      (processBlock_paused_false h c acc b (hbs b (List.mem_cons_self b t)) hp)

theorem runMessagesAcc_paused_false (h : String → Int) (c : List String) (acc : StreamAcc)
    (ms : List AgentMessage)
    (hms : ∀ m ∈ ms, ∀ b ∈ msgBlocks m, isUnconfirmedDestructive h c b = false)
    (hp : acc.paused = false) :
    (runMessagesAcc h c acc ms).paused = false := by
  induction ms generalizing acc with
  | nil => exact hp
  | cons m t ih =>
    simp [runMessagesAcc, List.foldl_cons] at ih ⊢
    refine ih _ (fun x hx => hms x (List.mem_cons_of_mem m hx)) ?_
    cases m with
    | assistant blocks =>
      simp [processMessage, hp]
      exact foldlBlocks_paused_false h c acc blocks
        (fun b hb => hms _ (List.mem_cons_self _ t) b hb) hp
    | result res is_error => simp [processMessage, hp]

theorem countType_processBlock_done (h : String → Int) (c : List String) (acc : StreamAcc)
    (b : ContentBlock) :
    countType SSE_EVENT_DONE (processBlock h c acc b).events
      = countType SSE_EVENT_DONE acc.events := by
  cases b with
  | text s =>
    by_cases hp : acc.paused <;>
      simp [processBlock, hp, countType, List.countP_append, List.countP_cons,
        SSE_EVENT_TEXT, SSE_EVENT_DONE]
  | toolUse name input =>
    by_cases hp : acc.paused
    · simp [processBlock, hp]
    · by_cases hd : name ∈ DESTRUCTIVE_TOOLS ∧ tool_id h name input ∉ c <;>
        simp [processBlock, hp, hd, countType, List.countP_append, List.countP_cons,
          SSE_EVENT_TOOL_USE, SSE_EVENT_CONFIRMATION_REQUIRED, SSE_EVENT_DONE]

theorem countType_foldlBlocks_done (h : String → Int) (c : List String) (acc : StreamAcc)
    (bs : List ContentBlock) :
    countType SSE_EVENT_DONE (bs.foldl (processBlock h c) acc).events
      = countType SSE_EVENT_DONE acc.events := by
  induction bs generalizing acc with
  | nil => rfl
  | cons b t ih =>
    simp [List.foldl_cons]
    rw [ih, countType_processBlock_done]

theorem countType_runMessagesAcc_done (h : String → Int) (c : List String) (acc : StreamAcc)
    (ms : List AgentMessage) :
    countType SSE_EVENT_DONE (runMessagesAcc h c acc ms).events
      = countType SSE_EVENT_DONE acc.events := by
  induction ms generalizing acc with
  | nil => rfl
  | cons m t ih =>
    simp [runMessagesAcc, List.foldl_cons] at ih ⊢
    rw [ih]
    cases m with
    | assistant blocks =>
      by_cases hp : acc.paused
      · simp [processMessage, hp]
      · simp [processMessage, hp, countType_foldlBlocks_done]
    | result res is_error =>
      by_cases hp : acc.paused <;>
        simp [processMessage, hp, countType, List.countP_append, List.countP_cons,
          SSE_EVENT_TOOL_RESULT, SSE_EVENT_DONE]

theorem countType_processBlock_confirm (h : String → Int) (c : List String) (acc : StreamAcc)
    (b : ContentBlock) (hb : isUnconfirmedDestructive h c b = false) :
    countType SSE_EVENT_CONFIRMATION_REQUIRED (processBlock h c acc b).events
      = countType SSE_EVENT_CONFIRMATION_REQUIRED acc.events := by
  cases b with
  | text s =>
    by_cases hp : acc.paused <;>
      simp [processBlock, hp, countType, List.countP_append, List.countP_cons,
        SSE_EVENT_TEXT, SSE_EVENT_CONFIRMATION_REQUIRED]
  | toolUse name input =>
    simp [isUnconfirmedDestructive] at hb
    by_cases hp : acc.paused
    · simp [processBlock, hp]
    · by_cases hd : name ∈ DESTRUCTIVE_TOOLS ∧ tool_id h name input ∉ c
      · exact absurd (hb hd.1) hd.2
      · simp [processBlock, hp, hd, countType, List.countP_append, List.countP_cons,
          SSE_EVENT_TOOL_USE, SSE_EVENT_CONFIRMATION_REQUIRED]

theorem countType_foldlBlocks_confirm (h : String → Int) (c : List String) (acc : StreamAcc)
    (bs : List ContentBlock)
    (hbs : ∀ b ∈ bs, isUnconfirmedDestructive h c b = false) :
    countType SSE_EVENT_CONFIRMATION_REQUIRED (bs.foldl (processBlock h c) acc).events
      = countType SSE_EVENT_CONFIRMATION_REQUIRED acc.events := by
  induction bs generalizing acc with
  | nil => rfl
  | cons b t ih =>
    simp [List.foldl_cons]
    rw [ih _ (fun x hx => hbs x (List.mem_cons_of_mem b hx)),
      countType_processBlock_confirm h c acc b (hbs b (List.mem_cons_self b t))]

theorem countType_runMessagesAcc_confirm (h : String → Int) (c : List String)
    (acc : StreamAcc) (ms : List AgentMessage)
    (hms : ∀ m ∈ ms, ∀ b ∈ msgBlocks m, isUnconfirmedDestructive h c b = false) :
    countType SSE_EVENT_CONFIRMATION_REQUIRED (runMessagesAcc h c acc ms).events
      = countType SSE_EVENT_CONFIRMATION_REQUIRED acc.events := by
  induction ms generalizing acc with
  | nil => rfl
  | cons m t ih =>
    simp [runMessagesAcc, List.foldl_cons] at ih ⊢
    rw [ih _ (fun x hx => hms x (List.mem_cons_of_mem m hx))]
    cases m with
    | assistant blocks =>
      by_cases hp : acc.paused
      · simp [processMessage, hp]
      · simp [processMessage, hp]
        exact countType_foldlBlocks_confirm h c acc blocks
          (fun b hb => hms _ (List.mem_cons_self _ t) b hb)
    | result res is_error =>
      by_cases hp : acc.paused <;>
        simp [processMessage, hp, countType, List.countP_append, List.countP_cons,
          SSE_EVENT_TOOL_RESULT, SSE_EVENT_CONFIRMATION_REQUIRED]

theorem runMessagesAcc_append (h : String → Int) (c : List String) (acc : StreamAcc)
    (l1 l2 : List AgentMessage) :
    runMessagesAcc h c acc (l1 ++ l2) = runMessagesAcc h c (runMessagesAcc h c acc l1) l2 := by
  simp [runMessagesAcc, List.foldl_append]

theorem countType_append (t : String) (l1 l2 : List SseEvent) :
    countType t (l1 ++ l2) = countType t l1 + countType t l2 := by
  simp [countType, List.countP_append]

/-! ## Claim theorems -/

/-- C1: the claim says the usage-counter increment and the
`last_query_at` update happen together and only after a turn confirmed
successful by a `done` event without error, and that a turn paused for
confirmation or ended in error never records usage.  The two updates do
happen together (`track_query_usage_nation` always performs both), but
the success test is substring containment of `"done"` (without
`"error":`) in each serialized SSE event, so a turn whose streamed text
contains the word "done" and which then pauses for confirmation — never
emitting a `done` event — still records usage: the code contradicts the
claim at this input. -/
theorem c1_paused_turn_still_tracked :
    process_streaming_request (fun _ => 0)
        (.obj [("query", .str "delete person 7"), ("user_id", .str "u1"),
               ("nation_slug", .str "n1")])
        .noItem 100
        (.found (.obj [("access_token", .str "tok"), ("nation_slug", .str "n1")]))
        (.ok [.assistant [.text "All done!",
                          .toolUse "delete_signup" (.obj [("person_id", .str "7")])]])
      = ⟨[⟨SSE_EVENT_TEXT, .obj [("text", .str "All done!")]⟩,
          ⟨SSE_EVENT_CONFIRMATION_REQUIRED,
           confirmationData (fun _ => 0) "delete_signup" (.obj [("person_id", .str "7")])⟩],
         true⟩ ∧
    (∀ (now : Int) (st : UsageState),
      track_query_usage_nation now st
        = (⟨some now, st.queries_used_this_period + 1⟩, st.queries_used_this_period + 1)) := by
  exact ⟨rfl, fun now st => rfl⟩

/-- C2 counterexample: on the legacy tenant-scoped path a record with
`queries_limit = 0` and zero usage is rejected with
`QUERY_LIMIT_EXCEEDED` (the `queries_limit > 0` guard is missing), while
the nation-scoped path treats the same numbers as unlimited and
allows. -/
theorem c2_cex_legacy_zero_limit_rejected :
    subErrCode (verify_subscription (some (tenantQuotaRec 0 0)) "u1" "t1")
        = some .QUERY_LIMIT_EXCEEDED ∧
    subOk (verify_nation_subscription (some (nationQuotaRec 0 0)) "u1" "n1") = true := by
  exact ⟨rfl, rfl⟩

/-- C2 (amended): for quota checks on an active subscription record,
the nation-scoped path rejects with `QUERY_LIMIT_EXCEEDED` exactly when
`queries_limit > 0` and usage has reached the limit (so `queries_limit
= 0` means unlimited, and usage `= limit - 1` is allowed); the legacy
tenant-scoped path has no unlimited rule and rejects exactly when usage
has reached the limit — in particular always when `queries_limit = 0`. -/
theorem c2_quota_check_characterization :
    ∀ (used limit : Int) (u n t : String),
      ((0 < limit ∧ limit ≤ used) →
        subErrCode (verify_nation_subscription (some (nationQuotaRec used limit)) u n)
          = some .QUERY_LIMIT_EXCEEDED) ∧
      ((limit ≤ 0 ∨ used < limit) →
        subOk (verify_nation_subscription (some (nationQuotaRec used limit)) u n) = true) ∧
      (limit ≤ used →
        subErrCode (verify_subscription (some (tenantQuotaRec used limit)) u t)
          = some .QUERY_LIMIT_EXCEEDED) ∧
      (used < limit →
        subOk (verify_subscription (some (tenantQuotaRec used limit)) u t) = true) := by
  intro used limit u n t
  refine ⟨fun hq => ?_, fun hq => ?_, fun hq => ?_, fun hq => ?_⟩
  · simp [verify_nation_subscription, nationQuotaRec, jsonGetD, jsonGet, assocLookup,
      pyInt, isActiveStatus, ACTIVE_STATUSES, subErrCode, hq.1, hq.2]
  · simp [verify_nation_subscription, nationQuotaRec, jsonGetD, jsonGet, assocLookup,
      pyInt, isActiveStatus, ACTIVE_STATUSES, subOk]
    rw [if_neg (by omega : ¬(0 < limit ∧ limit ≤ used))]
  · simp [verify_subscription, tenantQuotaRec, jsonGetD, jsonGet, assocLookup,
      pyInt, isActiveStatus, ACTIVE_STATUSES, subErrCode, hq]
  · simp [verify_subscription, tenantQuotaRec, jsonGetD, jsonGet, assocLookup,
      pyInt, isActiveStatus, ACTIVE_STATUSES, subOk]
    rw [if_neg (by omega : ¬limit ≤ used)]

/-- Witness for C2: concrete instances of the amended quota
characterization. -/
theorem c2_witness :
    subErrCode (verify_nation_subscription (some (nationQuotaRec 5 5)) "u1" "n1")
        = some .QUERY_LIMIT_EXCEEDED ∧
    subOk (verify_nation_subscription (some (nationQuotaRec 4 5)) "u1" "n1") = true ∧
    subOk (verify_nation_subscription (some (nationQuotaRec 100 0)) "u1" "n1") = true ∧
    subErrCode (verify_subscription (some (tenantQuotaRec 5 5)) "u1" "t1")
        = some .QUERY_LIMIT_EXCEEDED ∧
    subOk (verify_subscription (some (tenantQuotaRec 4 5)) "u1" "t1") = true := by
  refine ⟨(c2_quota_check_characterization 5 5 "u1" "n1" "t1").1 (by omega),
    (c2_quota_check_characterization 4 5 "u1" "n1" "t1").2.1 (by omega),
    (c2_quota_check_characterization 100 0 "u1" "n1" "t1").2.1 (by omega),
    (c2_quota_check_characterization 5 5 "u1" "n1" "t1").2.2.1 (by omega),
    (c2_quota_check_characterization 4 5 "u1" "n1" "t1").2.2.2 (by omega)⟩

/-- C3: a destructive tool invocation whose fingerprint is not in the
confirmed set makes the stream emit exactly one `confirmation_required`
event (carrying `tool_id`, `tool_name`, `tool_input` and `summary`, via
`confirmationData`) and terminate with no further event and no `done`
event; the same invocation with its fingerprint in the confirmed set
emits a normal `tool_use` event and the stream continues with the
remaining blocks and messages. -/
theorem c3_confirmation_gate_pause_and_resume :
    (∀ (h : String → Int) (confirmed : List String) (ms1 : List AgentMessage)
       (bs1 : List ContentBlock) (name : String) (input : Json)
       (bs2 : List ContentBlock) (ms2 : List AgentMessage),
      (∀ m ∈ ms1, ∀ b ∈ msgBlocks m, isUnconfirmedDestructive h confirmed b = false) →
      (∀ b ∈ bs1, isUnconfirmedDestructive h confirmed b = false) →
      DESTRUCTIVE_TOOLS.contains name = true →
      confirmed.contains (tool_id h name input) = false →
      stream_agent_response h confirmed
          (.ok (ms1 ++ [.assistant (bs1 ++ .toolUse name input :: bs2)] ++ ms2))
        = (bs1.foldl (processBlock h confirmed)
            (runMessagesAcc h confirmed initAcc ms1)).events
          ++ [⟨SSE_EVENT_CONFIRMATION_REQUIRED, confirmationData h name input⟩] ∧
      countType SSE_EVENT_CONFIRMATION_REQUIRED
          (stream_agent_response h confirmed
            (.ok (ms1 ++ [.assistant (bs1 ++ .toolUse name input :: bs2)] ++ ms2))) = 1 ∧
      countType SSE_EVENT_DONE
          (stream_agent_response h confirmed
            (.ok (ms1 ++ [.assistant (bs1 ++ .toolUse name input :: bs2)] ++ ms2))) = 0) ∧
    (∀ (h : String → Int) (confirmed : List String) (ms1 : List AgentMessage)
       (bs1 : List ContentBlock) (name : String) (input : Json)
       (bs2 : List ContentBlock) (ms2 : List AgentMessage),
      (∀ m ∈ ms1, ∀ b ∈ msgBlocks m, isUnconfirmedDestructive h confirmed b = false) →
      (∀ b ∈ bs1, isUnconfirmedDestructive h confirmed b = false) →
      confirmed.contains (tool_id h name input) = true →
      stream_agent_response h confirmed
          (.ok (ms1 ++ [.assistant (bs1 ++ .toolUse name input :: bs2)] ++ ms2))
        = (let a2 := bs1.foldl (processBlock h confirmed)
               (runMessagesAcc h confirmed initAcc ms1)
           let a3 := { a2 with
             tool_calls := a2.tool_calls ++ [toolInfoJson name input]
             events := a2.events ++ [⟨SSE_EVENT_TOOL_USE, toolInfoJson name input⟩] }
           let af := runMessagesAcc h confirmed (bs2.foldl (processBlock h confirmed) a3) ms2
           if af.paused then af.events else af.events ++ [doneEvent af])) := by
  constructor
  · intro h confirmed ms1 bs1 name input bs2 ms2 hms hbs1 hdes hunc
    have ha1p : (runMessagesAcc h confirmed initAcc ms1).paused = false :=
      runMessagesAcc_paused_false h confirmed initAcc ms1 hms rfl
    set a1 := runMessagesAcc h confirmed initAcc ms1 with ha1
    have ha2p : (bs1.foldl (processBlock h confirmed) a1).paused = false :=
      foldlBlocks_paused_false h confirmed a1 bs1 hbs1 ha1p
    set a2 := bs1.foldl (processBlock h confirmed) a1 with ha2
    have hdes' : name ∈ DESTRUCTIVE_TOOLS := by simpa using hdes
    have hunc' : tool_id h name input ∉ confirmed := by simpa using hunc
    have hstep : processBlock h confirmed a2 (.toolUse name input)
        = { a2 with
            events := a2.events ++
              [⟨SSE_EVENT_CONFIRMATION_REQUIRED, confirmationData h name input⟩]
            paused := true } := by
      simp [processBlock, ha2p, hdes', hunc']
    have hrun : runMessagesAcc h confirmed initAcc
          (ms1 ++ [.assistant (bs1 ++ .toolUse name input :: bs2)] ++ ms2)
        = { a2 with
            events := a2.events ++
              [⟨SSE_EVENT_CONFIRMATION_REQUIRED, confirmationData h name input⟩]
            paused := true } := by
      rw [runMessagesAcc_append, runMessagesAcc_append]
      rw [← ha1]
      have hA : runMessagesAcc h confirmed a1 [.assistant (bs1 ++ .toolUse name input :: bs2)]
          = { a2 with
              events := a2.events ++
                [⟨SSE_EVENT_CONFIRMATION_REQUIRED, confirmationData h name input⟩]
              paused := true } := by
        show processMessage h confirmed a1 (.assistant (bs1 ++ .toolUse name input :: bs2))
          = _
        rw [processMessage]
        rw [if_neg (by rw [ha1p]; exact fun hx => nomatch hx)]
        rw [List.foldl_append, List.foldl_cons, ← ha2, hstep]
        exact foldlBlocks_of_paused h confirmed _ bs2 rfl
      rw [hA]
      exact runMessagesAcc_of_paused h confirmed _ ms2 rfl
    have hstream : stream_agent_response h confirmed
          (.ok (ms1 ++ [.assistant (bs1 ++ .toolUse name input :: bs2)] ++ ms2))
        = a2.events ++ [⟨SSE_EVENT_CONFIRMATION_REQUIRED, confirmationData h name input⟩] := by
      rw [stream_agent_response, runMessages, hrun]
      rfl
    have hcrA2 : countType SSE_EVENT_CONFIRMATION_REQUIRED a2.events = 0 := by
      rw [ha2, countType_foldlBlocks_confirm h confirmed a1 bs1 hbs1, ha1,
        countType_runMessagesAcc_confirm h confirmed initAcc ms1 hms]
      rfl
    have hdnA2 : countType SSE_EVENT_DONE a2.events = 0 := by
      rw [ha2, countType_foldlBlocks_done, ha1, countType_runMessagesAcc_done]
      rfl
    refine ⟨hstream, ?_, ?_⟩
    · rw [hstream, countType_append, hcrA2]
      rfl
    · rw [hstream, countType_append, hdnA2]
      rfl
  · intro h confirmed ms1 bs1 name input bs2 ms2 hms hbs1 hcon
    have ha1p : (runMessagesAcc h confirmed initAcc ms1).paused = false :=
      runMessagesAcc_paused_false h confirmed initAcc ms1 hms rfl
    set a1 := runMessagesAcc h confirmed initAcc ms1 with ha1
    have ha2p : (bs1.foldl (processBlock h confirmed) a1).paused = false :=
      foldlBlocks_paused_false h confirmed a1 bs1 hbs1 ha1p
    set a2 := bs1.foldl (processBlock h confirmed) a1 with ha2
    have hcon' : tool_id h name input ∈ confirmed := by simpa using hcon
    have hstep : processBlock h confirmed a2 (.toolUse name input)
        = { a2 with
            tool_calls := a2.tool_calls ++ [toolInfoJson name input]
            events := a2.events ++ [⟨SSE_EVENT_TOOL_USE, toolInfoJson name input⟩] } := by
      simp [processBlock, ha2p, hcon']
    have hrun : runMessagesAcc h confirmed initAcc
          (ms1 ++ [.assistant (bs1 ++ .toolUse name input :: bs2)] ++ ms2)
        = runMessagesAcc h confirmed
            (bs2.foldl (processBlock h confirmed)
              { a2 with
                tool_calls := a2.tool_calls ++ [toolInfoJson name input]
                events := a2.events ++ [⟨SSE_EVENT_TOOL_USE, toolInfoJson name input⟩] }) ms2 := by
      rw [runMessagesAcc_append, runMessagesAcc_append]
      rw [← ha1]
      congr 1
      show processMessage h confirmed a1 (.assistant (bs1 ++ .toolUse name input :: bs2)) = _
      rw [processMessage]
      rw [if_neg (by rw [ha1p]; exact fun hx => nomatch hx)]
      rw [List.foldl_append, List.foldl_cons, ← ha2, hstep]
    rw [stream_agent_response, runMessages, hrun]

/-- Witness for C3: one unconfirmed destructive call yields exactly the
confirmation event and nothing else; with the fingerprint confirmed,
the same call yields a `tool_use` event and the stream runs to its
`done` event. -/
theorem c3_witness :
    stream_agent_response (fun _ => 0) []
        (.ok [.assistant [.toolUse "delete_signup" (.obj [("person_id", .str "7")])]])
      = [⟨SSE_EVENT_CONFIRMATION_REQUIRED,
          confirmationData (fun _ => 0) "delete_signup" (.obj [("person_id", .str "7")])⟩] ∧
    stream_agent_response (fun _ => 0)
        [tool_id (fun _ => 0) "delete_signup" (.obj [("person_id", .str "7")])]
        (.ok [.assistant [.toolUse "delete_signup" (.obj [("person_id", .str "7")])]])
      = [⟨SSE_EVENT_TOOL_USE, toolInfoJson "delete_signup" (.obj [("person_id", .str "7")])⟩,
         ⟨SSE_EVENT_DONE, .obj [("response", .str ""),
            ("tool_calls", .arr [toolInfoJson "delete_signup" (.obj [("person_id", .str "7")])])]⟩] := by
  constructor
  · have := (c3_confirmation_gate_pause_and_resume.1 (fun _ => 0) [] [] []
      "delete_signup" (.obj [("person_id", .str "7")]) [] []
      (by simp) (by simp) (by decide) (by decide)).1
    exact this
  · have := c3_confirmation_gate_pause_and_resume.2 (fun _ => 0)
      [tool_id (fun _ => 0) "delete_signup" (.obj [("person_id", .str "7")])] [] []
      "delete_signup" (.obj [("person_id", .str "7")]) [] []
      (by simp) (by simp) (by simp)
    exact this

/-- C4 counterexample: a turn rejected before streaming (missing
`query`) is not paused for confirmation, yet its event stream is a lone
`error` event with no `done` event — contradicting the claim that such
turns also receive a terminal `done`. -/
theorem c4_cex_rejected_turn_has_no_done_event :
    (process_streaming_request (fun _ => 0)
        (.obj [("user_id", .str "u1"), ("nation_slug", .str "n1")])
        .noItem 0 .notFound (.ok [])).events.map SseEvent.ty = [SSE_EVENT_ERROR] ∧
    countType SSE_EVENT_DONE
      (process_streaming_request (fun _ => 0)
        (.obj [("user_id", .str "u1"), ("nation_slug", .str "n1")])
        .noItem 0 .notFound (.ok [])).events = 0 := by
  exact ⟨rfl, rfl⟩

/-- C4 (amended): a turn that passes admission and whose stream is not
paused for confirmation ends with a `done` event; an exception during
streaming appends an `error` event followed immediately by a `done`
event carrying an empty response and the error message; but a turn
rejected before streaming (missing field, rate limit, missing
credentials) emits exactly one `error` event and no `done` event; a
paused turn emits no `done` event. -/
theorem c4_terminal_events_characterization :
    ∀ (h : String → Int) (body : Json) (rate : RateLookup) (now : Int)
      (secret : SecretLookup),
      ((jsonGetD body "query" .null).truthy = false →
        ∀ outcome, process_streaming_request h body rate now secret outcome
          = ⟨[badRequestEvent "Missing required field: query"], false⟩) ∧
      ((jsonGetD body "query" .null).truthy = true →
        (jsonGetD body "user_id" .null).truthy = false →
        ∀ outcome, process_streaming_request h body rate now secret outcome
          = ⟨[badRequestEvent "Missing required field: user_id"], false⟩) ∧
      ((jsonGetD body "query" .null).truthy = true →
        (jsonGetD body "user_id" .null).truthy = true →
        (jsonGetD body "nation_slug" .null).truthy = false →
        ∀ outcome, process_streaming_request h body rate now secret outcome
          = ⟨[badRequestEvent "Missing required field: nation_slug"], false⟩) ∧
      (bodyFieldsPresent body = true →
        ∀ r, check_rate_limit rate now = some r →
        ∀ outcome, process_streaming_request h body rate now secret outcome
          = ⟨[⟨SSE_EVENT_ERROR,
               .obj [("error", .str ("Rate limit exceeded. Please wait " ++ toString r ++
                       " seconds.")),
                     ("error_code", .str "RATE_LIMIT_EXCEEDED"),
                     ("retry_after", .num r)]⟩], false⟩) ∧
      (bodyFieldsPresent body = true →
        check_rate_limit rate now = none →
        get_nb_tokens_by_nation secret (jsonGetD body "nation_slug" .null).pyStr = none →
        ∀ outcome, process_streaming_request h body rate now secret outcome
          = ⟨[⟨SSE_EVENT_ERROR,
               .obj [("error", .str "NationBuilder not connected for this nation"),
                     ("error_code", .str "NB_NOT_CONNECTED")]⟩], false⟩) ∧
      (bodyFieldsPresent body = true →
        check_rate_limit rate now = none →
        ∀ tk, get_nb_tokens_by_nation secret (jsonGetD body "nation_slug" .null).pyStr
            = some tk →
        (∀ msgs, (runMessages h (confirmed_tools_of body) msgs).paused = false →
          (process_streaming_request h body rate now secret (.ok msgs)).events.getLast?
            = some (doneEvent (runMessages h (confirmed_tools_of body) msgs))) ∧
        (∀ msgs emsg, (runMessages h (confirmed_tools_of body) msgs).paused = false →
          (process_streaming_request h body rate now secret (.err msgs emsg)).events
            = (runMessages h (confirmed_tools_of body) msgs).events ++
              [⟨SSE_EVENT_ERROR, .obj [("error", .str emsg),
                                       ("error_code", .str "AGENT_ERROR")]⟩,
               ⟨SSE_EVENT_DONE, .obj [("response", .str ""), ("tool_calls", .arr []),
                                      ("error", .str emsg)]⟩]) ∧
        (∀ msgs, (runMessages h (confirmed_tools_of body) msgs).paused = true →
          countType SSE_EVENT_DONE
            (process_streaming_request h body rate now secret (.ok msgs)).events = 0)) := by
  intro h body rate now secret
  refine ⟨fun hq outcome => ?_, fun hq hu outcome => ?_, fun hq hu hs outcome => ?_,
    fun hf r hrl outcome => ?_, fun hf hrl hnb outcome => ?_, fun hf hrl tk htk => ?_⟩
  · simp [process_streaming_request, hq]
  · simp [process_streaming_request, hq, hu]
  · simp [process_streaming_request, hq, hu, hs]
  · simp only [bodyFieldsPresent, Bool.and_eq_true] at hf
    simp [process_streaming_request, hf.1.1, hf.1.2, hf.2, hrl]
  · simp only [bodyFieldsPresent, Bool.and_eq_true] at hf
    simp [process_streaming_request, hf.1.1, hf.1.2, hf.2, hrl, hnb]
  · simp only [bodyFieldsPresent, Bool.and_eq_true] at hf
    have hev : ∀ outcome, process_streaming_request h body rate now secret outcome
        = ⟨stream_agent_response h (confirmed_tools_of body) outcome,
           (stream_agent_response h (confirmed_tools_of body) outcome).any doneFlagCheck⟩ := by
      intro outcome
      simp [process_streaming_request, hf.1.1, hf.1.2, hf.2, hrl, htk]
    refine ⟨fun msgs hp => ?_, fun msgs emsg hp => ?_, fun msgs hp => ?_⟩
    · rw [hev, stream_agent_response]
      rw [if_neg (by rw [hp]; exact fun hx => nomatch hx)]
      simp
    · rw [hev, stream_agent_response]
      rw [if_neg (by rw [hp]; exact fun hx => nomatch hx)]
    · rw [hev, stream_agent_response]
      rw [if_pos hp]
      rw [runMessages, countType_runMessagesAcc_done]
      rfl

/-- Witness for C4: a successful turn ends with the `done` event, an
errored turn ends with `error` then `done`, and a missing-`query` turn
yields the single `BAD_REQUEST` error event. -/
theorem c4_witness :
    (process_streaming_request (fun _ => 0)
        (.obj [("query", .str "hello"), ("user_id", .str "u1"), ("nation_slug", .str "n1")])
        .noItem 0
        (.found (.obj [("access_token", .str "tok"), ("nation_slug", .str "n1")]))
        (.ok [.assistant [.text "hi"]])).events.getLast?
      = some (doneEvent (runMessages (fun _ => 0)
          (confirmed_tools_of
            (.obj [("query", .str "hello"), ("user_id", .str "u1"),
                   ("nation_slug", .str "n1")]))
          [.assistant [.text "hi"]])) ∧
    (process_streaming_request (fun _ => 0)
        (.obj [("query", .str "hello"), ("user_id", .str "u1"), ("nation_slug", .str "n1")])
        .noItem 0
        (.found (.obj [("access_token", .str "tok"), ("nation_slug", .str "n1")]))
        (.err [] "boom")).events
      = [⟨SSE_EVENT_ERROR, .obj [("error", .str "boom"), ("error_code", .str "AGENT_ERROR")]⟩,
         ⟨SSE_EVENT_DONE, .obj [("response", .str ""), ("tool_calls", .arr []),
                                ("error", .str "boom")]⟩] ∧
    process_streaming_request (fun _ => 0) (.obj [("user_id", .str "u1")])
        .noItem 0 .notFound (.ok [])
      = ⟨[badRequestEvent "Missing required field: query"], false⟩ := by
  refine ⟨?_, ?_, ?_⟩
  · exact ((c4_terminal_events_characterization (fun _ => 0)
      (.obj [("query", .str "hello"), ("user_id", .str "u1"), ("nation_slug", .str "n1")])
      .noItem 0
      (.found (.obj [("access_token", .str "tok"), ("nation_slug", .str "n1")]))).2.2.2.2.2
      (by decide) rfl ("tok", "n1") rfl).1 [.assistant [.text "hi"]] rfl
  · have := ((c4_terminal_events_characterization (fun _ => 0)
      (.obj [("query", .str "hello"), ("user_id", .str "u1"), ("nation_slug", .str "n1")])
      .noItem 0
      (.found (.obj [("access_token", .str "tok"), ("nation_slug", .str "n1")]))).2.2.2.2.2
      (by decide) rfl ("tok", "n1") rfl).2.1 [] "boom" rfl
    rw [this]
    rfl
  · exact (c4_terminal_events_characterization (fun _ => 0) (.obj [("user_id", .str "u1")])
      .noItem 0 .notFound).1 rfl (.ok [])

/-- C5: the rate-limit check rejects with `retry_after = 5 - elapsed`
exactly when `elapsed = now - last_query_at < 5`; at `elapsed = 5` or
more it allows; a missing user record, a missing `last_query_at`
attribute, or a store lookup error always allows (fail open). -/
theorem c5_rate_limit_characterization :
    ∀ (lookup : RateLookup) (now : Int),
      check_rate_limit .svcError now = none ∧
      check_rate_limit .noItem now = none ∧
      check_rate_limit (.item none) now = none ∧
      (∀ lqa : Int, now - lqa < 5 →
        check_rate_limit (.item (some lqa)) now = some (5 - (now - lqa))) ∧
      (∀ lqa : Int, 5 ≤ now - lqa → check_rate_limit (.item (some lqa)) now = none) ∧
      (check_rate_limit lookup now ≠ none →
        ∃ lqa, lookup = .item (some lqa) ∧ now - lqa < 5) := by
  intro lookup now
  refine ⟨rfl, rfl, rfl, fun lqa hlt => ?_, fun lqa hge => ?_, fun hne => ?_⟩
  · simp [check_rate_limit, RATE_LIMIT_COOLDOWN_SECONDS, hlt]
  · simp [check_rate_limit, RATE_LIMIT_COOLDOWN_SECONDS]
    omega
  · match lookup with
    | .svcError => exact absurd rfl hne
    | .noItem => exact absurd rfl hne
    | .item none => exact absurd rfl hne
    | .item (some lqa) =>
      refine ⟨lqa, rfl, ?_⟩
      by_contra hge
      exact hne (by simp [check_rate_limit, RATE_LIMIT_COOLDOWN_SECONDS]; omega)

/-- Witness for C5: elapsed 3 seconds is rejected with `retry_after =
2`, elapsed 5 seconds is allowed, no record is allowed. -/
theorem c5_witness :
    check_rate_limit (.item (some 7)) 10 = some 2 ∧
    check_rate_limit (.item (some 5)) 10 = none ∧
    check_rate_limit .noItem 10 = none := by
  refine ⟨?_, ?_, (c5_rate_limit_characterization .noItem 10).2.1⟩
  · exact (c5_rate_limit_characterization (.item (some 7)) 10).2.2.2.1 7 (by omega)
  · exact (c5_rate_limit_characterization (.item (some 5)) 10).2.2.2.2.1 5 (by omega)

/-- C6 counterexample: a credential record carrying `needs_reauth =
true` together with a usable access token is not rejected on the
streaming path — the resolver returns the token pair and the turn runs
to its `done` event, with no `NEEDS_REAUTH` (or any) error event. -/
theorem c6_cex_needs_reauth_record_not_rejected :
    get_nb_tokens_by_nation
        (.found (.obj [("access_token", .str "tok"), ("nation_slug", .str "n1"),
                       ("needs_reauth", .bool true)])) "n1"
      = some ("tok", "n1") ∧
    (process_streaming_request (fun _ => 0)
        (.obj [("query", .str "hello"), ("user_id", .str "u1"),
               ("nation_slug", .str "n1")])
        .noItem 0
        (.found (.obj [("access_token", .str "tok"), ("nation_slug", .str "n1"),
                       ("needs_reauth", .bool true)]))
        (.ok [.assistant [.text "hi"]])).events.map SseEvent.ty
      = [SSE_EVENT_TEXT, SSE_EVENT_DONE] := by
  exact ⟨rfl, rfl⟩

/-- C6 (amended): on the streaming request path, a missing or
unparseable credential record, or one without a truthy `access_token`,
rejects the turn with `NB_NOT_CONNECTED`; a record with a usable token
makes the resolver return `(access_token, slug)` and the turn proceed.
The resolver's result is a function of only the `access_token` and
`nation_slug` fields, so a `needs_reauth` flag is never consulted on
this path. -/
theorem c6_credential_resolution_streaming_path :
    (∀ slug : String, get_nb_tokens_by_nation .notFound slug = none) ∧
    (∀ slug : String, get_nb_tokens_by_nation .badJson slug = none) ∧
    (∀ (d : Json) (slug : String),
      get_nb_tokens_by_nation (.found d) slug
        = nbTokensOf (jsonGet d "access_token") (jsonGet d "nation_slug") slug) ∧
    (∀ (h : String → Int) (body : Json) (rate : RateLookup) (now : Int)
       (secret : SecretLookup),
      bodyFieldsPresent body = true →
      check_rate_limit rate now = none →
      (get_nb_tokens_by_nation secret (jsonGetD body "nation_slug" .null).pyStr = none →
        ∀ outcome, process_streaming_request h body rate now secret outcome
          = ⟨[⟨SSE_EVENT_ERROR,
               .obj [("error", .str "NationBuilder not connected for this nation"),
                     ("error_code", .str "NB_NOT_CONNECTED")]⟩], false⟩) ∧
      (∀ tk, get_nb_tokens_by_nation secret (jsonGetD body "nation_slug" .null).pyStr
          = some tk →
        ∀ outcome, (process_streaming_request h body rate now secret outcome).events
          = stream_agent_response h (confirmed_tools_of body) outcome)) := by
  refine ⟨fun slug => rfl, fun slug => rfl, fun d slug => rfl,
    fun h body rate now secret hf hrl => ?_⟩
  simp only [bodyFieldsPresent, Bool.and_eq_true] at hf
  refine ⟨fun hnb outcome => ?_, fun tk htk outcome => ?_⟩
  · simp [process_streaming_request, hf.1.1, hf.1.2, hf.2, hrl, hnb]
  · simp [process_streaming_request, hf.1.1, hf.1.2, hf.2, hrl, htk]

/-- Witness for C6: the resolver formula at a record carrying a
`needs_reauth` flag, the no-record case, and the `NB_NOT_CONNECTED`
rejection of a turn without credentials. -/
theorem c6_witness :
    get_nb_tokens_by_nation
        (.found (.obj [("access_token", .str "tok"), ("nation_slug", .str "n1"),
                       ("needs_reauth", .bool true)])) "n1"
      = nbTokensOf (some (.str "tok")) (some (.str "n1")) "n1" ∧
    get_nb_tokens_by_nation .notFound "n1" = none ∧
    (process_streaming_request (fun _ => 0)
        (.obj [("query", .str "hello"), ("user_id", .str "u1"), ("nation_slug", .str "n1")])
        .noItem 0 .notFound (.ok [])).events
      = [⟨SSE_EVENT_ERROR,
          .obj [("error", .str "NationBuilder not connected for this nation"),
                ("error_code", .str "NB_NOT_CONNECTED")]⟩] := by
  refine ⟨c6_credential_resolution_streaming_path.2.2.1 _ "n1",
    c6_credential_resolution_streaming_path.1 "n1", ?_⟩
  have := (c6_credential_resolution_streaming_path.2.2.2 (fun _ => 0)
      (.obj [("query", .str "hello"), ("user_id", .str "u1"), ("nation_slug", .str "n1")])
      .noItem 0 .notFound (by decide) rfl).1 rfl (.ok [])
  rw [this]

/-- C7: the claim says any failure of the refresh exchange — including
a network error — sets `needs_reauth = true` and leaves the old token
pair in place.  A transport error is re-raised past the `except
ValueError` handler into the generic `except Exception` branch, which
records the failure without touching the user record: `needs_reauth` is
not set there, contradicting the claim's network-error case.  A non-200
response (invalid/expired refresh token) does set `needs_reauth` and
leaves the stored tokens; a successful exchange stores the new pair
(falling back to the old refresh token when the response omits one),
updates the expiry, and clears `needs_reauth`. -/
theorem c7_network_error_skips_reauth_flag :
    refresh_user_token "user-1"
        (.found (.obj [("access_token", .str "old_at"), ("refresh_token", .str "old_rt"),
                       ("nb_slug", .str "acme")]))
        (.networkError "connection error") 1000
      = (⟨"user-1", false, some "connection error"⟩, ⟨none, none⟩) ∧
    refresh_user_token "user-1"
        (.found (.obj [("access_token", .str "old_at"), ("refresh_token", .str "old_rt"),
                       ("nb_slug", .str "acme")]))
        (.response 401 (.obj [])) 1000
      = (⟨"user-1", false, some "Token refresh failed with status 401"⟩,
         ⟨none, some .setNeedsReauth⟩) ∧
    refresh_user_token "user-1"
        (.found (.obj [("access_token", .str "old_at"), ("refresh_token", .str "old_rt"),
                       ("nb_slug", .str "acme")]))
        (.response 200 (.obj [("access_token", .str "new_at"),
                              ("refresh_token", .str "new_rt"),
                              ("expires_in", .num 7200)])) 1000
      = (⟨"user-1", true, none⟩,
         ⟨some ⟨.str "new_at", .str "new_rt", 8200, .str "acme"⟩,
          some (.setRefreshed 8200)⟩) ∧
    refresh_user_token "user-1"
        (.found (.obj [("access_token", .str "old_at"), ("refresh_token", .str "old_rt"),
                       ("nb_slug", .str "acme")]))
        (.response 200 (.obj [("access_token", .str "new_at")])) 1000
      = (⟨"user-1", true, none⟩,
         ⟨some ⟨.str "new_at", .str "old_rt", 8200, .str "acme"⟩,
          some (.setRefreshed 8200)⟩) := by
  exact ⟨rfl, rfl, rfl, rfl⟩

/-- C8: the claim says the fingerprint is a deterministic function of
`(tool name, canonicalized input)`.  Canonicalization
(`sort_keys=True`) does make the fingerprint invariant under key-order
permutation of the input for any fixed process hash, but the
fingerprint is built from Python's built-in `hash` on `str`, which is
salted per process (`PYTHONHASHSEED`): two processes with different
string hashes assign the same call different fingerprints, so a
re-submitted call handled by another process is not recognized. -/
theorem c8_fingerprint_depends_on_process_hash :
    (∀ h : String → Int,
      tool_id h "update_event" (.obj [("a", .num 1), ("b", .num 2)])
        = tool_id h "update_event" (.obj [("b", .num 2), ("a", .num 1)])) ∧
    tool_id (fun _ => 0) "delete_signup" (.obj [("person_id", .str "7")])
      ≠ tool_id (fun _ => 1) "delete_signup" (.obj [("person_id", .str "7")]) := by
  exact ⟨fun h => rfl, by decide⟩

/-- C9: `_get_undo_instruction` on `undo_type = "delete_created"`,
`original_tool_name = "create_signup"`, `undo_data = {"signup_id":
"12345"}` yields `"call delete_signup with id=12345"`; whenever no
synthesis case matches with its required fields present and truthy —
any unrecognized undo type, or any matched case with a required field
missing — the result is the literal fallback
`"This action cannot be undone"`. -/
theorem c9_undo_instruction_synthesis :
    get_undo_instruction (.str "delete_created") (.obj [("signup_id", .str "12345")])
        (.str "create_signup") = "call delete_signup with id=12345" ∧
    (∀ undo_type undo_data original_tool_name : Json,
      undoApplicable undo_type undo_data original_tool_name = false →
      get_undo_instruction undo_type undo_data original_tool_name
        = "This action cannot be undone") := by
  refine ⟨rfl, fun t d n happ => ?_⟩
  unfold get_undo_instruction
  split_ifs <;> first | rfl | (exfalso; simp_all [undoApplicable])

/-- Witness for C9: an unrecognized undo type falls back even with
plausible undo data present. -/
theorem c9_witness :
    undoApplicable (.str "explode") (.obj [("signup_id", .str "12345")]) (.str "create_signup")
        = false ∧
    get_undo_instruction (.str "explode") (.obj [("signup_id", .str "12345")])
        (.str "create_signup") = "This action cannot be undone" :=
  ⟨by decide, c9_undo_instruction_synthesis.2 _ _ _ (by decide)⟩

/-- C10: the undo-stack renderer reads the tool name, undo type and
undo data only under the camelCase keys `"toolName"`, `"undoType"` and
`"undoData"`; any entry lacking those keys (for example one supplying
snake_case `"tool_name"`, `"undo_type"`, `"undo_data"` instead) gets
the defaults `"unknown"` and `"not_undoable"` and is rendered with the
fallback instruction `"This action cannot be undone"`. -/
theorem c10_snake_case_undo_entry_falls_back :
    ∀ (a : Json) (i : Nat),
      jsonGet a "toolName" = none →
      jsonGet a "undoType" = none →
      jsonGet a "undoData" = none →
      jsonGetD a "toolName" (.str "unknown") = .str "unknown" ∧
      jsonGetD a "undoType" (.str "not_undoable") = .str "not_undoable" ∧
      renderUndoEntry i a
        = "  " ++ toString (i + 1) ++ ". " ++
            (jsonGetD a "description" (.str "Unknown action")).pyStr ++
            " - To undo: " ++ "This action cannot be undone" := by
  intro a i h1 h2 h3
  have e1 : jsonGetD a "toolName" (.str "unknown") = .str "unknown" := by
    rw [jsonGetD, h1]; rfl
  have e2 : jsonGetD a "undoType" (.str "not_undoable") = .str "not_undoable" := by
    rw [jsonGetD, h2]; rfl
  have e3 : jsonGetD a "undoData" (.obj []) = .obj [] := by
    rw [jsonGetD, h3]; rfl
  refine ⟨e1, e2, ?_⟩
  unfold renderUndoEntry
  rw [e1, e2, e3]
  rfl

/-- Witness for C10: a snake_case undo entry renders with the fallback
instruction. -/
theorem c10_witness :
    renderUndoEntry 0
        (.obj [("description", .str "Created signup"),
               ("tool_name", .str "create_signup"),
               ("undo_type", .str "delete_created"),
               ("undo_data", .obj [("signup_id", .str "12345")])])
      = "  1. Created signup - To undo: This action cannot be undone" := by
  have := (c10_snake_case_undo_entry_falls_back
      (.obj [("description", .str "Created signup"),
             ("tool_name", .str "create_signup"),
             ("undo_type", .str "delete_created"),
             ("undo_data", .obj [("signup_id", .str "12345")])]) 0 rfl rfl rfl).2.2
  rw [this]
  rfl
